import Mathlib

/-!
# go-omada: session lifecycle of the controller client (`controller.go`)

A shallow embedding of `controller.go`.  The Go methods on `*Controller`
become functions that take the controller and the outside world and return
the updated controller, the updated world and the returned `error`
(`none` is Go's `nil`).

Everything the file calls but does not define (`url.JoinPath`,
`http.NewRequest`'s URL validation, `encoding/json`, the network and the
server behind it) is collected in `Env`; theorems quantify over every `Env`.
-/

namespace Omada

/-- A Go `error` value, identified with its message text. -/
abbrev GoError := String

deriving instance DecidableEq for Except

/-- The `%d` verb of `fmt` applied to an `int`. -/
def fmtD (n : Int) : String := toString n

/-! ## Data model (`controller.go` lines 16-83) -/

/-- An HTTP cookie as kept by a cookie jar. -/
structure Cookie where
  Name : String
  Value : String
  deriving DecidableEq, Repr

/-- A `cookiejar.Jar` object: `id` is the identity of the allocated object,
`entries` its content. -/
structure CookieJar where
  id : Nat
  entries : List Cookie
  deriving DecidableEq, Repr

/-- The fields of `http.Client` that `controller.go` sets: `Jar` (possibly nil),
`Timeout` in nanoseconds, `Transport.TLSClientConfig.InsecureSkipVerify`, and
whether `CheckRedirect` answers `http.ErrUseLastResponse`. -/
structure Client where
  Jar : Option CookieJar
  Timeout : Nat
  InsecureSkipVerify : Bool
  UseLastResponse : Bool
  deriving DecidableEq, Repr

/-- An `http.Request` as built by `http.NewRequest` and `Header.Set`. -/
structure Request where
  Method : String
  URL : String
  Header : List (String × String)
  Body : Option String
  deriving DecidableEq, Repr

/-- What actually goes on the wire: the request together with the cookies the
client attached from its jar. -/
structure WireRequest where
  req : Request
  cookies : List Cookie
  deriving DecidableEq, Repr

/-- An `http.Response`: status code, body, and the cookies it sets. -/
structure Response where
  StatusCode : Int
  Body : String
  Cookies : List Cookie
  deriving DecidableEq, Repr

/-- The outside world: the wire requests issued so far (oldest first) and the
number of cookie jars allocated so far. -/
structure World where
  log : List WireRequest
  jars : Nat
  deriving DecidableEq, Repr

structure Controller where
  httpClient : Client
  baseURL : String
  controllerId : String
  token : String
  siteId : String
  Sites : List (String × String)
  user : String
  pass : String
  deriving DecidableEq, Repr

structure ControllerInfoResult where
  ControllerVer : String
  APIVer : String
  Configured : Bool
  Type_ : Int
  SupportApp : Bool
  OmadacID : String
  deriving DecidableEq, Repr

structure ControllerInfo where
  ErrorCode : Int
  Msg : String
  Result : ControllerInfoResult
  deriving DecidableEq, Repr

structure LoginBody where
  Username : String
  Password : String
  deriving DecidableEq, Repr

structure LoginResult where
  RoleType : Int
  Token : String
  deriving DecidableEq, Repr

structure LoginResponse where
  ErrorCode : Int
  Msg : String
  Result : LoginResult
  deriving DecidableEq, Repr

structure Sites where
  Name : String
  Key : String
  deriving DecidableEq, Repr

structure Privilege where
  Sites : List Sites
  LastVisited : String
  All : Bool
  deriving DecidableEq, Repr

structure currentUserResult where
  ID : String
  Type_ : Int
  RoleType : Int
  Name : String
  OmadacID : String
  Adopt : Bool
  Manage : Bool
  License : Bool
  SiteManage : Bool
  Privilege : Privilege
  Disaster : Int
  NeedFeedback : Bool
  DefaultSite : Bool
  ForceModify : Bool
  Dbnormal : Bool
  deriving DecidableEq, Repr

structure currentUserResponse where
  ErrorCode : Int
  Msg : String
  Result : currentUserResult
  deriving DecidableEq, Repr

/-! ## External collaborators -/

/-- The library and network behaviour `controller.go` relies on.

* `JoinPath` is `url.JoinPath base elem...`;
* `ParseURL` is the URL validation inside `http.NewRequest` (`none` = valid);
* `MarshalLogin` is `json.Marshal` on a `LoginBody`;
* `DecodeInfo`, `DecodeLogin`, `DecodeCurrentUser` are
  `json.NewDecoder(body).Decode` into the respective struct;
* `RoundTrip log wire` is the network and the server: the reply to `wire`
  given everything sent before;
* `CookieMatches ck url` tells whether the jar sends `ck` to `url`;
* `StoreCookies entries url cks` is the jar content after `SetCookies`;
* `SitesRequest baseURL controllerId token` builds the request of the
  sites endpoint (used by `getSites` only). -/
structure Env where
  JoinPath : String → List String → Except GoError String
  ParseURL : String → Option GoError
  MarshalLogin : LoginBody → Except GoError String
  DecodeInfo : String → Except GoError ControllerInfo
  DecodeLogin : String → Except GoError LoginResponse
  DecodeCurrentUser : String → Except GoError currentUserResponse
  RoundTrip : List WireRequest → WireRequest → Except GoError Response
  CookieMatches : Cookie → String → Bool
  StoreCookies : List Cookie → String → List Cookie → List Cookie
  SitesRequest : String → String → String → Except GoError Request

/-- What a method call leaves behind: the controller, the world, and the
returned `error`. -/
structure Outcome where
  c : Controller
  w : World
  err : Option GoError

/-! ## Standard-library pieces with a fixed meaning -/

/-- Go's `strconv.ParseBool`: the value and whether parsing failed. -/
def ParseBool (str : String) : Bool × Option GoError :=
  if str = "1" ∨ str = "t" ∨ str = "T" ∨ str = "true" ∨ str = "TRUE" ∨ str = "True" then
    (true, none)
  else if str = "0" ∨ str = "f" ∨ str = "F" ∨ str = "false" ∨ str = "FALSE" ∨ str = "False" then
    (false, none)
  else
    (false, some ("strconv.ParseBool: parsing " ++ str ++ ": invalid syntax"))

/-- Go's `os.LookupEnv` over an environment `environ`: the value (empty when
unset) and whether the variable is present. -/
def LookupEnv (environ : String → Option String) (key : String) : String × Bool :=
  match environ key with
  | some v => (v, true)
  | none => ("", false)

/-- The call `cookiejar.New(nil)`: a new empty jar object with an id never handed out before. -/
def cookiejarNew (w : World) : CookieJar × World :=
  ({ id := w.jars, entries := [] }, { w with jars := w.jars + 1 })

/-- The method `Jar.Cookies(url)`: the stored cookies that apply to `url`. -/
def CookieJar.Cookies (env : Env) (j : CookieJar) (url : String) : List Cookie :=
  j.entries.filter (fun ck => env.CookieMatches ck url)

/-- The method `Jar.SetCookies(url, cookies)`: same jar object, updated content. -/
def CookieJar.SetCookies (env : Env) (j : CookieJar) (url : String) (cks : List Cookie) :
    CookieJar :=
  { j with entries := env.StoreCookies j.entries url cks }

/-- The call `http.NewRequest(method, url, body)` for the methods used here
(`GET`, `POST`): fails exactly when the URL does not parse. -/
def NewRequest (env : Env) (method url : String) (body : Option String) :
    Except GoError Request :=
  match env.ParseURL url with
  | some e => .error e
  | none => .ok { Method := method, URL := url, Header := [], Body := body }

/-- The method `req.Header.Set(key, value)`. -/
def Request.HeaderSet (r : Request) (key value : String) : Request :=
  { r with Header := (key, value) :: r.Header.filter (fun kv => kv.1 ≠ key) }

/-- The method `(*http.Client).Do` as one exchange (the client made by `New` does
not follow redirects): attach the jar's cookies, send, and on a reply with
cookies store them in the jar.  A failed exchange leaves the jar as it was. -/
def Client.Do (env : Env) (cl : Client) (req : Request) (w : World) :
    Client × World × Except GoError Response :=
  let cookies :=
    match cl.Jar with
    | none => []
    | some j => j.Cookies env req.URL
  let wire : WireRequest := { req := req, cookies := cookies }
  let w1 : World := { w with log := w.log ++ [wire] }
  match env.RoundTrip w.log wire with
  | .error e => (cl, w1, .error e)
  | .ok res =>
    match cl.Jar with
    | none => (cl, w1, .ok res)
    | some j =>
      if res.Cookies = [] then (cl, w1, .ok res)
      else ({ cl with Jar := some (j.SetCookies env req.URL res.Cookies) }, w1, .ok res)

/-- Assignment `m[k] = v` on a Go `map[string]string`. -/
def mapSet (m : List (String × String)) (k v : String) : List (String × String) :=
  (k, v) :: m.filter (fun kv => kv.1 ≠ k)

/-- A new map filled by `m[s.Name] = s.Key` for each site in order. -/
def rebuildSites (sites : List Sites) : List (String × String) :=
  sites.foldl (fun m s => mapSet m s.Name s.Key) []

/-! ## The operations of `controller.go` -/

/-- `New(baseURL)` (lines 85-107), reading the process environment `environ`. -/
def New (environ : String → Option String) (baseURL : String) (w : World) :
    Controller × World :=
  let (jar, w1) := cookiejarNew w
  let v := (LookupEnv environ "OMADA_DISABLE_HTTPS_VERIFICATION").1
  let disableHttpsVerification := (ParseBool v).1
  let httpClient : Client :=
    { Jar := some jar
      Timeout := 30 * 1000000000
      InsecureSkipVerify := disableHttpsVerification
      UseLastResponse := true }
  ({ httpClient := httpClient, baseURL := baseURL, controllerId := "", token := "",
     siteId := "", Sites := [], user := "", pass := "" }, w1)

/-- `NewWithHttpClient(baseURL, httpClient)` (lines 109-115). -/
def NewWithHttpClient (baseURL : String) (httpClient : Client) : Controller :=
  { httpClient := httpClient, baseURL := baseURL, controllerId := "", token := "",
    siteId := "", Sites := [], user := "", pass := "" }

/-- `(*Controller).GetControllerInfo` (lines 117-151). -/
def GetControllerInfo (env : Env) (c : Controller) (w : World) : Outcome :=
  match env.JoinPath c.baseURL ["/api/info"] with
  | .error err => ⟨c, w, some err⟩
  | .ok address =>
    match NewRequest env "GET" address none with
    | .error err => ⟨c, w, some err⟩
    | .ok req0 =>
      let req := req0.HeaderSet "Accept" "application/json"
      match Client.Do env c.httpClient req w with
      | (cl, w1, .error err) => ⟨{ c with httpClient := cl }, w1, some err⟩
      | (cl, w1, .ok res) =>
        let c1 := { c with httpClient := cl }
        if res.StatusCode ≠ 200 then
          ⟨c1, w1, some ("status code: " ++ fmtD res.StatusCode)⟩
        else
          match env.DecodeInfo res.Body with
          | .error err => ⟨c1, w1, some err⟩
          | .ok infoResponse =>
            if infoResponse.ErrorCode ≠ 0 then
              ⟨c1, w1, some ("failed to get controller info: code='" ++
                fmtD infoResponse.ErrorCode ++ "', message='" ++ infoResponse.Msg ++ "'")⟩
            else
              ⟨{ c1 with controllerId := infoResponse.Result.OmadacID }, w1, none⟩

/-- Modelled from the spec: `getSites` is called by `Login` (line 200) but its body
is not part of `controller.go`.  Following the Site Catalog section: it queries the
sites endpoint with the current session (token and cookies), decodes the visible
site list and rebuilds the name-to-key mapping from scratch; a transport, decode
or controller-reported error is returned and leaves the mapping as it was. -/
def getSites (env : Env) (c : Controller) (w : World) : Outcome :=
  match env.SitesRequest c.baseURL c.controllerId c.token with
  | .error err => ⟨c, w, some err⟩
  | .ok req =>
    match Client.Do env c.httpClient req w with
    | (cl, w1, .error err) => ⟨{ c with httpClient := cl }, w1, some err⟩
    | (cl, w1, .ok res) =>
      let c1 := { c with httpClient := cl }
      match env.DecodeCurrentUser res.Body with
      | .error err => ⟨c1, w1, some err⟩
      | .ok cur =>
        if cur.ErrorCode ≠ 0 then
          ⟨c1, w1, some ("failed to get sites: code=" ++ fmtD cur.ErrorCode ++
            ", message=" ++ cur.Msg)⟩
        else
          ⟨{ c1 with Sites := rebuildSites cur.Result.Privilege.Sites }, w1, none⟩

/-- `(*Controller).Login` (lines 153-207). -/
def Login (env : Env) (c : Controller) (user pass : String) (w : World) : Outcome :=
  let c0 := { c with user := user, pass := pass }
  match env.JoinPath c0.baseURL [c0.controllerId, "/api/v2/login"] with
  | .error err => ⟨c0, w, some err⟩
  | .ok endpoint =>
    let loginBody : LoginBody := { Username := user, Password := pass }
    match env.MarshalLogin loginBody with
    | .error err => ⟨c0, w, some err⟩
    | .ok loginJSON =>
      match NewRequest env "POST" endpoint (some loginJSON) with
      | .error err => ⟨c0, w, some err⟩
      | .ok req0 =>
        let req := req0.HeaderSet "Content-Type" "application/json"
        match Client.Do env c0.httpClient req w with
        | (cl, w1, .error err) => ⟨{ c0 with httpClient := cl }, w1, some err⟩
        | (cl, w1, .ok res) =>
          let c1 := { c0 with httpClient := cl }
          if res.StatusCode ≠ 200 then
            ⟨c1, w1, some ("status code: " ++ fmtD res.StatusCode)⟩
          else
            match env.DecodeLogin res.Body with
            | .error err => ⟨c1, w1, some err⟩
            | .ok login =>
              if login.ErrorCode ≠ 0 then
                ⟨c1, w1, some ("omada controller login error, code: " ++
                  fmtD login.ErrorCode ++ ", message: " ++ login.Msg)⟩
              else
                let c2 := { c1 with token := login.Result.Token }
                match getSites env c2 w1 with
                | ⟨c3, w2, some err⟩ => ⟨c3, w2, some err⟩
                | ⟨c3, w2, none⟩ => ⟨c3, w2, none⟩

/-- `(*Controller).refreshLogin` (lines 209-217). -/
def refreshLogin (env : Env) (c : Controller) (w : World) : Outcome :=
  let (jar, w1) := cookiejarNew w
  let c1 := { c with httpClient := { c.httpClient with Jar := some jar } }
  match Login env c1 c1.user c1.pass w1 with
  | ⟨c2, w2, some err⟩ => ⟨c2, w2, some err⟩
  | ⟨c2, w2, none⟩ => ⟨c2, w2, none⟩

/-! ## A scripted controller for concrete runs -/

/-- A stand-in for `url.JoinPath` on a base without path: every non-empty element
is appended after exactly one slash. -/
def demoJoinPath (base : String) (elems : List String) : Except GoError String :=
  .ok (elems.foldl (fun acc e =>
    if e = "" then acc
    else acc ++ "/" ++ String.mk (e.data.dropWhile (fun ch => ch = '/'))) base)

/-- Body of an info reply with error code 0 and id `ABC123`. -/
def infoOkBody : String :=
  "\x7b\"errorCode\":0,\"msg\":\"\",\"result\":\x7b\"omadacId\":\"ABC123\"\x7d\x7d"

/-- Body of an info reply with error code -1. -/
def infoBadBody : String :=
  "\x7b\"errorCode\":-1,\"msg\":\"unavailable\"\x7d"

/-- Body of a login reply with error code 0 and token `T1`. -/
def loginOkBody : String :=
  "\x7b\"errorCode\":0,\"msg\":\"\",\"result\":\x7b\"roleType\":0,\"token\":\"T1\"\x7d\x7d"

/-- Body of a login reply with error code -30109 and a token the client must ignore. -/
def loginBadBody : String :=
  "\x7b\"errorCode\":-30109,\"msg\":\"Invalid username or password.\",\"result\":\x7b\"token\":\"T9\"\x7d\x7d"

/-- Body of a current-user reply listing the site `Default` with key `k1`. -/
def sitesOkBody : String :=
  "\x7b\"errorCode\":0,\"result\":\x7b\"privilege\":\x7b\"sites\":[\x7b\"name\":\"Default\",\"key\":\"k1\"\x7d]\x7d\x7d\x7d"

/-- The decoder restricted to the two info bodies above. -/
def demoDecodeInfo (body : String) : Except GoError ControllerInfo :=
  if body = infoOkBody then
    .ok { ErrorCode := 0, Msg := "", Result := ⟨"", "", false, 0, false, "ABC123"⟩ }
  else if body = infoBadBody then
    .ok { ErrorCode := -1, Msg := "unavailable", Result := ⟨"", "", false, 0, false, ""⟩ }
  else .error "invalid character"

/-- The decoder restricted to the two login bodies above. -/
def demoDecodeLogin (body : String) : Except GoError LoginResponse :=
  if body = loginOkBody then
    .ok { ErrorCode := 0, Msg := "", Result := ⟨0, "T1"⟩ }
  else if body = loginBadBody then
    .ok { ErrorCode := -30109, Msg := "Invalid username or password.", Result := ⟨0, "T9"⟩ }
  else .error "invalid character"

/-- The decoder restricted to the current-user body above. -/
def demoDecodeCurrentUser (body : String) : Except GoError currentUserResponse :=
  if body = sitesOkBody then
    .ok { ErrorCode := 0, Msg := "",
          Result := ⟨"", 0, 0, "", "", false, false, false, false,
            ⟨[⟨"Default", "k1"⟩], "", false⟩, 0, false, false, false, false⟩ }
  else .error "invalid character"

/-- A server at `http://omada.test` that answers the info request with `info`,
every POST with `login` and anything else with `sites`. -/
def demoEnv (info login sites : Except GoError Response) : Env :=
  { JoinPath := demoJoinPath
    ParseURL := fun _ => none
    MarshalLogin := fun b =>
      .ok ("\x7b\"username\":\"" ++ b.Username ++ "\",\"password\":\"" ++ b.Password ++ "\"\x7d")
    DecodeInfo := demoDecodeInfo
    DecodeLogin := demoDecodeLogin
    DecodeCurrentUser := demoDecodeCurrentUser
    RoundTrip := fun _ wire =>
      if wire.req.URL = "http://omada.test/api/info" then info
      else if wire.req.Method = "POST" then login
      else sites
    CookieMatches := fun _ _ => true
    StoreCookies := fun old _ cks => cks ++ old
    SitesRequest := fun baseURL controllerId token =>
      .ok { Method := "GET", URL := baseURL ++ "/" ++ controllerId ++ "/api/v2/users/current",
            Header := [("Csrf-Token", token)], Body := none } }

def okInfo : Response := ⟨200, infoOkBody, []⟩
def badInfo : Response := ⟨200, infoBadBody, []⟩
def okLogin : Response := ⟨200, loginOkBody, [⟨"TPOMADA_SESSIONID", "s1"⟩]⟩
def badLogin : Response := ⟨200, loginBadBody, []⟩
def unauthorized : Response := ⟨401, "", []⟩
def okSites : Response := ⟨200, sitesOkBody, []⟩

/-- The world before anything happened. -/
def world0 : World := ⟨[], 0⟩

/-- A controller made by `New` in an empty process environment. -/
def fresh : Controller := (New (fun _ => none) "http://omada.test" world0).1

/-- The world right after `New`. -/
def world1 : World := (New (fun _ => none) "http://omada.test" world0).2

/-- Info, login and sites all answer well. -/
def happyEnv : Env := demoEnv (.ok okInfo) (.ok okLogin) (.ok okSites)

/-- The info request is answered with error code -1. -/
def rejectingEnv : Env := demoEnv (.ok badInfo) (.ok okLogin) (.ok okSites)

/-- The login request is answered with HTTP 401. -/
def deniedEnv : Env := demoEnv (.ok okInfo) (.ok unauthorized) (.ok okSites)

/-- The login request is answered with error code -30109. -/
def refusedEnv : Env := demoEnv (.ok okInfo) (.ok badLogin) (.ok okSites)

/-- The login is accepted but the sites request fails in transport. -/
def sitesDownEnv : Env := demoEnv (.ok okInfo) (.ok okLogin) (.error "connection reset")

/-- The controller after a successful `GetControllerInfo`: id `ABC123`. -/
def discovered : Controller := (GetControllerInfo happyEnv fresh world1).c

/-- The world after that discovery. -/
def world2 : World := (GetControllerInfo happyEnv fresh world1).w

/-- The login request for `admin` / `secret` on the discovered controller. -/
def adminLoginRequest : Request :=
  { Method := "POST", URL := "http://omada.test/ABC123/api/v2/login",
    Header := [("Content-Type", "application/json")],
    Body := some "\x7b\"username\":\"admin\",\"password\":\"secret\"\x7d" }

/-- The controller after `Login admin secret` succeeded on `discovered`. -/
def loggedIn : Controller := (Login happyEnv discovered "admin" "secret" world2).c

/-- The world after that login. -/
def world3 : World := (Login happyEnv discovered "admin" "secret" world2).w

/-! ## Specification-side predicates -/

/-- The info request of `GetControllerInfo` goes through: the address and the
request are built, the transport call returns a reply with status 200, the
body decodes to `info`, and `info.ErrorCode` is 0. -/
def InfoSucceeds (env : Env) (c : Controller) (w : World) (info : ControllerInfo) : Prop :=
  ∃ address req cl w1 res,
    env.JoinPath c.baseURL ["/api/info"] = .ok address ∧
    NewRequest env "GET" address none = .ok req ∧
    Client.Do env c.httpClient (req.HeaderSet "Accept" "application/json") w
      = (cl, w1, .ok res) ∧
    res.StatusCode = 200 ∧
    env.DecodeInfo res.Body = .ok info ∧
    info.ErrorCode = 0

/-- The info request of `GetControllerInfo` is answered with status 200 and a
body that decodes to `info` with a non-zero error code. -/
def InfoRejected (env : Env) (c : Controller) (w : World) (info : ControllerInfo) : Prop :=
  ∃ address req cl w1 res,
    env.JoinPath c.baseURL ["/api/info"] = .ok address ∧
    NewRequest env "GET" address none = .ok req ∧
    Client.Do env c.httpClient (req.HeaderSet "Accept" "application/json") w
      = (cl, w1, .ok res) ∧
    res.StatusCode = 200 ∧
    env.DecodeInfo res.Body = .ok info ∧
    info.ErrorCode ≠ 0

/-- The requests put on the wire between world `w0` and the later world `w1`. -/
def issued (w0 w1 : World) : List WireRequest :=
  w1.log.drop w0.log.length

/-- The cookies `Client.Do` attaches to a request for `url`. -/
def jarCookies (env : Env) (cl : Client) (url : String) : List Cookie :=
  match cl.Jar with
  | none => []
  | some j => j.Cookies env url

/-- The request-building part of `Login` (lines 158-178): the error of the first
failing step, or the finished request. -/
def loginRequest (env : Env) (c : Controller) (user pass : String) : Except GoError Request :=
  match env.JoinPath c.baseURL [c.controllerId, "/api/v2/login"] with
  | .error err => .error err
  | .ok endpoint =>
    match env.MarshalLogin { Username := user, Password := pass } with
    | .error err => .error err
    | .ok loginJSON =>
      match NewRequest env "POST" endpoint (some loginJSON) with
      | .error err => .error err
      | .ok req0 => .ok (req0.HeaderSet "Content-Type" "application/json")

/-- The login request of `Login c user pass` was built and sent from world `w`,
and the transport returned the reply `res`, leaving client `cl` and world `w1`. -/
def LoginReplied (env : Env) (c : Controller) (user pass : String) (w : World)
    (cl : Client) (w1 : World) (res : Response) : Prop :=
  ∃ req, loginRequest env c user pass = .ok req ∧
    Client.Do env c.httpClient req w = (cl, w1, .ok res)

/-- The login reply was accepted: status 200 and a body decoding to `login`
with error code 0. -/
def LoginAccepted (env : Env) (c : Controller) (user pass : String) (w : World)
    (cl : Client) (w1 : World) (login : LoginResponse) : Prop :=
  ∃ res, LoginReplied env c user pass w cl w1 res ∧ res.StatusCode = 200 ∧
    env.DecodeLogin res.Body = .ok login ∧ login.ErrorCode = 0

/-- The controller `Login` hands to `getSites`: submitted credentials, the client
after the login round trip, and the token of the login response. -/
def afterLogin (c : Controller) (user pass : String) (cl : Client) (login : LoginResponse) :
    Controller :=
  { c with user := user, pass := pass, httpClient := cl, token := login.Result.Token }

/-! ## Discovery -/

/-- The decoded info of a successful info request is determined by the state. -/
theorem InfoSucceeds_unique (env : Env) (c : Controller) (w : World) (i1 i2 : ControllerInfo)
    (h1 : InfoSucceeds env c w i1) (h2 : InfoSucceeds env c w i2) : i1 = i2 := by
  obtain ⟨a1, r1, cl1, w1, res1, ha1, hr1, hd1, _, hi1, _⟩ := h1
  obtain ⟨a2, r2, cl2, w2, res2, ha2, hr2, hd2, _, hi2, _⟩ := h2
  rw [ha1] at ha2
  cases ha2
  rw [hr1] at hr2
  cases hr2
  rw [hd1] at hd2
  cases hd2
  rw [hi1] at hi2
  cases hi2
  rfl

/-- Either the info request succeeds and the decoded id is stored, or an error
is returned and the id is kept. -/
theorem GetControllerInfo_cases (env : Env) (c : Controller) (w : World) :
    (∃ info, InfoSucceeds env c w info ∧ (GetControllerInfo env c w).err = none ∧
      (GetControllerInfo env c w).c.controllerId = info.Result.OmadacID) ∨
    ((¬ ∃ info, InfoSucceeds env c w info) ∧ (GetControllerInfo env c w).err ≠ none ∧
      (GetControllerInfo env c w).c.controllerId = c.controllerId) := by
  cases h1 : env.JoinPath c.baseURL ["/api/info"] with
  | error e =>
    right
    refine ⟨?_, ?_, ?_⟩
    · rintro ⟨info, a, r, cl, w1, res, ha, -⟩
      rw [h1] at ha
      cases ha
    · simp [GetControllerInfo, h1]
    · simp [GetControllerInfo, h1]
  | ok address =>
    cases h2 : NewRequest env "GET" address none with
    | error e =>
      right
      refine ⟨?_, ?_, ?_⟩
      · rintro ⟨info, a, r, cl, w1, res, ha, hr, -⟩
        rw [h1] at ha
        cases ha
        rw [h2] at hr
        cases hr
      · simp [GetControllerInfo, h1, h2]
      · simp [GetControllerInfo, h1, h2]
    | ok req =>
      rcases h3 : Client.Do env c.httpClient (req.HeaderSet "Accept" "application/json") w
        with ⟨cl, w1, r⟩
      cases r with
      | error e =>
        right
        refine ⟨?_, ?_, ?_⟩
        · rintro ⟨info, a, r, cl2, w2, res, ha, hr, hd, -⟩
          rw [h1] at ha
          cases ha
          rw [h2] at hr
          cases hr
          rw [h3] at hd
          cases hd
        · simp [GetControllerInfo, h1, h2, h3]
        · simp [GetControllerInfo, h1, h2, h3]
      | ok res =>
        by_cases h4 : res.StatusCode = 200
        · cases h5 : env.DecodeInfo res.Body with
          | error e =>
            right
            refine ⟨?_, ?_, ?_⟩
            · rintro ⟨info, a, r, cl2, w2, res2, ha, hr, hd, -, hi, -⟩
              rw [h1] at ha
              cases ha
              rw [h2] at hr
              cases hr
              rw [h3] at hd
              cases hd
              rw [h5] at hi
              cases hi
            · simp [GetControllerInfo, h1, h2, h3, h4, h5]
            · simp [GetControllerInfo, h1, h2, h3, h4, h5]
          | ok info =>
            by_cases h6 : info.ErrorCode = 0
            · left
              refine ⟨info, ⟨address, req, cl, w1, res, h1, h2, h3, h4, h5, h6⟩, ?_, ?_⟩
              · simp [GetControllerInfo, h1, h2, h3, h4, h5, h6]
              · simp [GetControllerInfo, h1, h2, h3, h4, h5, h6]
            · right
              refine ⟨?_, ?_, ?_⟩
              · rintro ⟨info2, a, r, cl2, w2, res2, ha, hr, hd, -, hi, he⟩
                rw [h1] at ha
                cases ha
                rw [h2] at hr
                cases hr
                rw [h3] at hd
                cases hd
                rw [h5] at hi
                cases hi
                exact h6 he
              · simp [GetControllerInfo, h1, h2, h3, h4, h5, h6]
              · simp [GetControllerInfo, h1, h2, h3, h4, h5, h6]
        · right
          refine ⟨?_, ?_, ?_⟩
          · rintro ⟨info, a, r, cl2, w2, res2, ha, hr, hd, hs, -⟩
            rw [h1] at ha
            cases ha
            rw [h2] at hr
            cases hr
            rw [h3] at hd
            cases hd
            exact h4 hs
          · simp [GetControllerInfo, h1, h2, h3, h4]
          · simp [GetControllerInfo, h1, h2, h3, h4]

/-- C1: `GetControllerInfo` returns no error exactly when the transport call
succeeded with status 200 and a body decoding to error code 0; then the stored
controller id is the decoded `omadacId`; in every other case an error is
returned and the controller id is untouched. -/
theorem GetControllerInfo_success_iff (env : Env) (c : Controller) (w : World) :
    ((GetControllerInfo env c w).err = none ↔ ∃ info, InfoSucceeds env c w info) ∧
    (∀ info, InfoSucceeds env c w info →
      (GetControllerInfo env c w).err = none ∧
      (GetControllerInfo env c w).c.controllerId = info.Result.OmadacID) ∧
    ((¬ ∃ info, InfoSucceeds env c w info) →
      (GetControllerInfo env c w).err ≠ none ∧
      (GetControllerInfo env c w).c.controllerId = c.controllerId) := by
  rcases GetControllerInfo_cases env c w with ⟨info, hs, he, hid⟩ | ⟨hn, he, hid⟩
  · refine ⟨⟨fun _ => ⟨info, hs⟩, fun _ => he⟩, ?_, ?_⟩
    · intro info2 hs2
      rw [InfoSucceeds_unique env c w info2 info hs2 hs]
      exact ⟨he, hid⟩
    · intro hn
      exact absurd ⟨info, hs⟩ hn
  · refine ⟨⟨fun h => absurd h he, fun h => absurd h hn⟩, ?_, ?_⟩
    · intro info hs
      exact absurd ⟨info, hs⟩ hn
    · intro _
      exact ⟨he, hid⟩

/-! ## Transport lemmas -/

theorem Do_world (env : Env) (cl : Client) (req : Request) (w : World) :
    (Client.Do env cl req w).2.1 =
      { w with log := w.log ++ [{ req := req, cookies := jarCookies env cl req.URL }] } := by
  unfold Client.Do jarCookies
  cases hj : cl.Jar with
  | none =>
    simp only []
    cases env.RoundTrip w.log { req := req, cookies := [] } <;> rfl
  | some j =>
    simp only []
    cases env.RoundTrip w.log { req := req, cookies := j.Cookies env req.URL } with
    | error e => rfl
    | ok res =>
      simp only []
      split <;> rfl

theorem Do_jar_id (env : Env) (cl : Client) (req : Request) (w : World) :
    (Client.Do env cl req w).1.Jar.map (fun j => j.id) = cl.Jar.map (fun j => j.id) := by
  unfold Client.Do
  cases hj : cl.Jar with
  | none =>
    simp only []
    cases env.RoundTrip w.log { req := req, cookies := [] } <;> simp [hj]
  | some j =>
    simp only []
    cases env.RoundTrip w.log { req := req, cookies := j.Cookies env req.URL } with
    | error e => simp [hj]
    | ok res =>
      simp only []
      split <;> simp [hj, CookieJar.SetCookies]

theorem Do_log_of_eq (env : Env) (cl : Client) (req : Request) (w : World) (cl1 : Client)
    (w1 : World) (r : Except GoError Response) (h : Client.Do env cl req w = (cl1, w1, r)) :
    w1.log = w.log ++ [{ req := req, cookies := jarCookies env cl req.URL }] ∧
    w1.jars = w.jars ∧
    cl1.Jar.map (fun j => j.id) = cl.Jar.map (fun j => j.id) := by
  have hw := Do_world env cl req w
  have hj := Do_jar_id env cl req w
  rw [h] at hw hj
  simp only [] at hw hj
  subst hw
  exact ⟨rfl, rfl, hj⟩

theorem issued_of_append (w w1 : World) (rest : List WireRequest)
    (h : w1.log = w.log ++ rest) : issued w w1 = rest := by
  unfold issued
  rw [h]
  exact List.drop_left w.log rest

/-! ## Site resolution lemmas -/

theorem getSites_frame (env : Env) (c : Controller) (w : World) :
    (getSites env c w).c.user = c.user ∧ (getSites env c w).c.pass = c.pass ∧
    (getSites env c w).c.token = c.token ∧ (getSites env c w).c.baseURL = c.baseURL ∧
    (getSites env c w).c.controllerId = c.controllerId := by
  unfold getSites
  cases env.SitesRequest c.baseURL c.controllerId c.token with
  | error e => simp
  | ok req =>
    simp only []
    rcases Client.Do env c.httpClient req w with ⟨cl, w1, r⟩
    cases r with
    | error e => simp
    | ok res =>
      simp only []
      cases env.DecodeCurrentUser res.Body with
      | error e => simp
      | ok cur =>
        simp only []
        split <;> simp

theorem getSites_world (env : Env) (c : Controller) (w : World) :
    (∃ rest, (getSites env c w).w.log = w.log ++ rest) ∧
    (getSites env c w).w.jars = w.jars ∧
    (getSites env c w).c.httpClient.Jar.map (fun j => j.id)
      = c.httpClient.Jar.map (fun j => j.id) := by
  unfold getSites
  cases env.SitesRequest c.baseURL c.controllerId c.token with
  | error e => exact ⟨⟨[], by simp⟩, rfl, rfl⟩
  | ok req =>
    simp only []
    rcases h : Client.Do env c.httpClient req w with ⟨cl, w1, r⟩
    obtain ⟨hl, hj, hi⟩ := Do_log_of_eq env c.httpClient req w cl w1 r h
    cases r with
    | error e => exact ⟨⟨_, hl⟩, hj, hi⟩
    | ok res =>
      simp only []
      cases env.DecodeCurrentUser res.Body with
      | error e => exact ⟨⟨_, hl⟩, hj, hi⟩
      | ok cur =>
        simp only []
        split
        · exact ⟨⟨_, hl⟩, hj, hi⟩
        · exact ⟨⟨_, hl⟩, hj, hi⟩

/-- A failing site resolution leaves the `Sites` mapping as it was. -/
theorem getSites_error_Sites (env : Env) (c : Controller) (w : World)
    (h : (getSites env c w).err ≠ none) : (getSites env c w).c.Sites = c.Sites := by
  revert h
  unfold getSites
  cases env.SitesRequest c.baseURL c.controllerId c.token with
  | error e => exact fun _ => rfl
  | ok req =>
    simp only []
    rcases Client.Do env c.httpClient req w with ⟨cl, w1, r⟩
    cases r with
    | error e => exact fun _ => rfl
    | ok res =>
      simp only []
      cases env.DecodeCurrentUser res.Body with
      | error e => exact fun _ => rfl
      | ok cur =>
        simp only []
        by_cases hc : cur.ErrorCode = 0
        · simp [hc]
        · simp [hc]

/-! ## The exits of `Login` -/

theorem Login_build_error (env : Env) (c : Controller) (user pass : String) (w : World)
    (e : GoError) (h : loginRequest env c user pass = .error e) :
    Login env c user pass w = ⟨{ c with user := user, pass := pass }, w, some e⟩ := by
  unfold loginRequest at h
  unfold Login
  cases h1 : env.JoinPath c.baseURL [c.controllerId, "/api/v2/login"] with
  | error e1 =>
    rw [h1] at h
    simp only [] at h
    cases h
    simp [h1]
  | ok endpoint =>
    rw [h1] at h
    simp only [] at h
    cases h2 : env.MarshalLogin { Username := user, Password := pass } with
    | error e2 =>
      rw [h2] at h
      simp only [] at h
      cases h
      simp [h1, h2]
    | ok js =>
      rw [h2] at h
      simp only [] at h
      cases h3 : NewRequest env "POST" endpoint (some js) with
      | error e3 =>
        rw [h3] at h
        simp only [] at h
        cases h
        simp [h1, h2, h3]
      | ok req0 =>
        rw [h3] at h
        simp only [] at h
        cases h

/-- Unfolding of `Login` once the request is built. -/
theorem Login_sent (env : Env) (c : Controller) (user pass : String) (w : World)
    (req : Request) (h : loginRequest env c user pass = .ok req) :
    Login env c user pass w =
      match Client.Do env c.httpClient req w with
      | (cl, w1, .error err) =>
        ⟨{ c with user := user, pass := pass, httpClient := cl }, w1, some err⟩
      | (cl, w1, .ok res) =>
        if res.StatusCode ≠ 200 then
          ⟨{ c with user := user, pass := pass, httpClient := cl }, w1,
            some ("status code: " ++ fmtD res.StatusCode)⟩
        else
          match env.DecodeLogin res.Body with
          | .error err =>
            ⟨{ c with user := user, pass := pass, httpClient := cl }, w1, some err⟩
          | .ok login =>
            if login.ErrorCode ≠ 0 then
              ⟨{ c with user := user, pass := pass, httpClient := cl }, w1,
                some ("omada controller login error, code: " ++
                  fmtD login.ErrorCode ++ ", message: " ++ login.Msg)⟩
            else
              getSites env (afterLogin c user pass cl login) w1 := by
  unfold loginRequest at h
  unfold Login
  cases h1 : env.JoinPath c.baseURL [c.controllerId, "/api/v2/login"] with
  | error e1 =>
    rw [h1] at h
    simp only [] at h
    cases h
  | ok endpoint =>
    rw [h1] at h
    simp only [] at h
    cases h2 : env.MarshalLogin { Username := user, Password := pass } with
    | error e2 =>
      rw [h2] at h
      simp only [] at h
      cases h
    | ok js =>
      rw [h2] at h
      simp only [] at h
      cases h3 : NewRequest env "POST" endpoint (some js) with
      | error e3 =>
        rw [h3] at h
        simp only [] at h
        cases h
      | ok req0 =>
        rw [h3] at h
        simp only [] at h
        cases h
        simp only [h1, h2, h3]
        rcases Client.Do env c.httpClient (req0.HeaderSet "Content-Type" "application/json") w
          with ⟨cl, w1, r⟩
        cases r with
        | error e => rfl
        | ok res =>
          simp only []
          split
          · rfl
          · cases env.DecodeLogin res.Body with
            | error e => rfl
            | ok login =>
              simp only []
              split
              · rfl
              · unfold afterLogin
                rcases getSites env _ w1 with ⟨c3, w2, err⟩
                cases err <;> rfl

theorem Login_transport_error (env : Env) (c : Controller) (user pass : String) (w : World)
    (req : Request) (cl : Client) (w1 : World) (e : GoError)
    (h : loginRequest env c user pass = .ok req)
    (hd : Client.Do env c.httpClient req w = (cl, w1, .error e)) :
    Login env c user pass w =
      ⟨{ c with user := user, pass := pass, httpClient := cl }, w1, some e⟩ := by
  rw [Login_sent env c user pass w req h, hd]

theorem Login_of_status (env : Env) (c : Controller) (user pass : String) (w : World)
    (cl : Client) (w1 : World) (res : Response)
    (hr : LoginReplied env c user pass w cl w1 res) (hs : res.StatusCode ≠ 200) :
    Login env c user pass w =
      ⟨{ c with user := user, pass := pass, httpClient := cl }, w1,
        some ("status code: " ++ fmtD res.StatusCode)⟩ := by
  obtain ⟨req, h, hd⟩ := hr
  rw [Login_sent env c user pass w req h, hd]
  simp only [hs, ne_eq, not_false_eq_true, if_true]

theorem Login_of_decode_error (env : Env) (c : Controller) (user pass : String) (w : World)
    (cl : Client) (w1 : World) (res : Response) (e : GoError)
    (hr : LoginReplied env c user pass w cl w1 res) (hs : res.StatusCode = 200)
    (hd : env.DecodeLogin res.Body = .error e) :
    Login env c user pass w =
      ⟨{ c with user := user, pass := pass, httpClient := cl }, w1, some e⟩ := by
  obtain ⟨req, h, hdo⟩ := hr
  rw [Login_sent env c user pass w req h, hdo]
  simp only [hs, ne_eq, not_true_eq_false, if_false, hd]

theorem Login_of_errorCode (env : Env) (c : Controller) (user pass : String) (w : World)
    (cl : Client) (w1 : World) (res : Response) (login : LoginResponse)
    (hr : LoginReplied env c user pass w cl w1 res) (hs : res.StatusCode = 200)
    (hd : env.DecodeLogin res.Body = .ok login) (he : login.ErrorCode ≠ 0) :
    Login env c user pass w =
      ⟨{ c with user := user, pass := pass, httpClient := cl }, w1,
        some ("omada controller login error, code: " ++
          fmtD login.ErrorCode ++ ", message: " ++ login.Msg)⟩ := by
  obtain ⟨req, h, hdo⟩ := hr
  rw [Login_sent env c user pass w req h, hdo]
  simp only [hs, ne_eq, not_true_eq_false, if_false, hd, he, not_false_eq_true, if_true]

theorem Login_of_accepted (env : Env) (c : Controller) (user pass : String) (w : World)
    (cl : Client) (w1 : World) (login : LoginResponse)
    (ha : LoginAccepted env c user pass w cl w1 login) :
    Login env c user pass w = getSites env (afterLogin c user pass cl login) w1 := by
  obtain ⟨res, ⟨req, h, hdo⟩, hs, hd, he⟩ := ha
  rw [Login_sent env c user pass w req h, hdo]
  simp only [hs, ne_eq, not_true_eq_false, if_false, hd, he]

/-- Every call of `Login` ends in one of its six exits. -/
theorem Login_cases (env : Env) (c : Controller) (user pass : String) (w : World) :
    (∃ e, loginRequest env c user pass = .error e ∧
      Login env c user pass w = ⟨{ c with user := user, pass := pass }, w, some e⟩) ∨
    (∃ req cl w1 e, loginRequest env c user pass = .ok req ∧
      Client.Do env c.httpClient req w = (cl, w1, .error e) ∧
      Login env c user pass w =
        ⟨{ c with user := user, pass := pass, httpClient := cl }, w1, some e⟩) ∨
    (∃ cl w1 res e, LoginReplied env c user pass w cl w1 res ∧
      Login env c user pass w =
        ⟨{ c with user := user, pass := pass, httpClient := cl }, w1, some e⟩) ∨
    (∃ cl w1 login, LoginAccepted env c user pass w cl w1 login ∧
      Login env c user pass w = getSites env (afterLogin c user pass cl login) w1) := by
  cases h : loginRequest env c user pass with
  | error e => exact Or.inl ⟨e, rfl, Login_build_error env c user pass w e h⟩
  | ok req =>
    right
    rcases hd : Client.Do env c.httpClient req w with ⟨cl, w1, r⟩
    cases r with
    | error e =>
      exact Or.inl ⟨req, cl, w1, e, rfl, hd,
        Login_transport_error env c user pass w req cl w1 e h hd⟩
    | ok res =>
      right
      have hr : LoginReplied env c user pass w cl w1 res := ⟨req, h, hd⟩
      by_cases hs : res.StatusCode = 200
      · cases hdec : env.DecodeLogin res.Body with
        | error e =>
          exact Or.inl ⟨cl, w1, res, e, hr,
            Login_of_decode_error env c user pass w cl w1 res e hr hs hdec⟩
        | ok login =>
          by_cases he : login.ErrorCode = 0
          · exact Or.inr ⟨cl, w1, login, ⟨res, hr, hs, hdec, he⟩,
              Login_of_accepted env c user pass w cl w1 login ⟨res, hr, hs, hdec, he⟩⟩
          · exact Or.inl ⟨cl, w1, res, _, hr,
              Login_of_errorCode env c user pass w cl w1 res login hr hs hdec he⟩
      · exact Or.inl ⟨cl, w1, res, _, hr, Login_of_status env c user pass w cl w1 res hr hs⟩

/-- After `Login user pass` the stored credentials are `user` and `pass`, whatever
the exit; base URL and controller id are untouched. -/
theorem Login_credentials (env : Env) (c : Controller) (user pass : String) (w : World) :
    (Login env c user pass w).c.user = user ∧ (Login env c user pass w).c.pass = pass ∧
    (Login env c user pass w).c.baseURL = c.baseURL ∧
    (Login env c user pass w).c.controllerId = c.controllerId := by
  rcases Login_cases env c user pass w with ⟨e, -, h⟩ | ⟨req, cl, w1, e, -, -, h⟩ |
    ⟨cl, w1, res, e, -, h⟩ | ⟨cl, w1, login, -, h⟩
  · rw [h]
    exact ⟨rfl, rfl, rfl, rfl⟩
  · rw [h]
    exact ⟨rfl, rfl, rfl, rfl⟩
  · rw [h]
    exact ⟨rfl, rfl, rfl, rfl⟩
  · rw [h]
    obtain ⟨h1, h2, -, h4, h5⟩ := getSites_frame env (afterLogin c user pass cl login) w1
    exact ⟨h1, h2, h4, h5⟩

/-- What `Login` does to the world and to the identity of the cookie store: no
jar is allocated, the store object stays the same, and the log grows by the login
request (if it could be built) followed by whatever site resolution sends. -/
theorem Login_trace (env : Env) (c : Controller) (user pass : String) (w : World) :
    (Login env c user pass w).w.jars = w.jars ∧
    (Login env c user pass w).c.httpClient.Jar.map (fun j => j.id)
      = c.httpClient.Jar.map (fun j => j.id) ∧
    ((∃ e, loginRequest env c user pass = .error e ∧
        (Login env c user pass w).w.log = w.log) ∨
      (∃ req rest, loginRequest env c user pass = .ok req ∧
        (Login env c user pass w).w.log =
          w.log ++ { req := req, cookies := jarCookies env c.httpClient req.URL } :: rest)) := by
  rcases Login_cases env c user pass w with ⟨e, hq, h⟩ | ⟨req, cl, w1, e, hq, hdo, h⟩ |
    ⟨cl, w1, res, e, ⟨req, hq, hdo⟩, h⟩ | ⟨cl, w1, login, ⟨res, ⟨req, hq, hdo⟩, -⟩, h⟩
  · rw [h]
    exact ⟨rfl, rfl, Or.inl ⟨e, hq, rfl⟩⟩
  · obtain ⟨hl, hj, hi⟩ := Do_log_of_eq env c.httpClient req w cl w1 _ hdo
    rw [h]
    exact ⟨hj, hi, Or.inr ⟨req, [], hq, hl⟩⟩
  · obtain ⟨hl, hj, hi⟩ := Do_log_of_eq env c.httpClient req w cl w1 _ hdo
    rw [h]
    exact ⟨hj, hi, Or.inr ⟨req, [], hq, hl⟩⟩
  · obtain ⟨hl, hj, hi⟩ := Do_log_of_eq env c.httpClient req w cl w1 _ hdo
    obtain ⟨⟨rest, hl2⟩, hj2, hi2⟩ := getSites_world env (afterLogin c user pass cl login) w1
    rw [h]
    refine ⟨hj2.trans hj, hi2.trans hi, Or.inr ⟨req, rest, hq, ?_⟩⟩
    rw [hl2, hl]
    simp

/-- The first request `Login` puts on the wire is its login request with the
cookies of the current store; there is none when the request cannot be built. -/
theorem Login_issued_head (env : Env) (c : Controller) (user pass : String) (w : World) :
    (issued w (Login env c user pass w).w).head? =
      match loginRequest env c user pass with
      | .error _ => none
      | .ok req => some { req := req, cookies := jarCookies env c.httpClient req.URL } := by
  rcases (Login_trace env c user pass w).2.2 with ⟨e, hq, hl⟩ | ⟨req, rest, hq, hl⟩
  · rw [hq, issued_of_append w _ [] (by rw [hl]; simp)]
    rfl
  · rw [hq, issued_of_append w _ _ hl]
    rfl

/-- The code of `refreshLogin`: allocate a store, install it, call `Login` with
the stored credentials. -/
theorem refreshLogin_eq (env : Env) (c : Controller) (w : World) :
    refreshLogin env c w =
      Login env { c with httpClient := { c.httpClient with Jar := some ⟨w.jars, []⟩ } }
        c.user c.pass { w with jars := w.jars + 1 } := by
  unfold refreshLogin cookiejarNew
  simp only []
  rcases Login env _ c.user c.pass _ with ⟨c2, w2, err⟩
  cases err <;> rfl

/-- The shape of a successfully built login request. -/
theorem loginRequest_ok (env : Env) (c : Controller) (user pass : String) (req : Request)
    (h : loginRequest env c user pass = .ok req) :
    ∃ endpoint js, env.JoinPath c.baseURL [c.controllerId, "/api/v2/login"] = .ok endpoint ∧
      env.MarshalLogin { Username := user, Password := pass } = .ok js ∧
      env.ParseURL endpoint = none ∧
      req = { Method := "POST", URL := endpoint,
              Header := [("Content-Type", "application/json")], Body := some js } := by
  unfold loginRequest at h
  cases h1 : env.JoinPath c.baseURL [c.controllerId, "/api/v2/login"] with
  | error e1 =>
    rw [h1] at h
    simp only [] at h
    cases h
  | ok endpoint =>
    rw [h1] at h
    simp only [] at h
    cases h2 : env.MarshalLogin { Username := user, Password := pass } with
    | error e2 =>
      rw [h2] at h
      simp only [] at h
      cases h
    | ok js =>
      rw [h2] at h
      simp only [] at h
      unfold NewRequest at h
      cases h3 : env.ParseURL endpoint with
      | some e3 =>
        rw [h3] at h
        simp only [] at h
        cases h
      | none =>
        rw [h3] at h
        simp only [] at h
        cases h
        exact ⟨endpoint, js, rfl, rfl, h3, rfl⟩

/-- The login request is built whenever the three building steps succeed. -/
theorem loginRequest_of_built (env : Env) (c : Controller) (user pass : String)
    (endpoint js : String)
    (hj : env.JoinPath c.baseURL [c.controllerId, "/api/v2/login"] = .ok endpoint)
    (hm : env.MarshalLogin { Username := user, Password := pass } = .ok js)
    (hp : env.ParseURL endpoint = none) :
    loginRequest env c user pass =
      .ok { Method := "POST", URL := endpoint,
            Header := [("Content-Type", "application/json")], Body := some js } := by
  unfold loginRequest NewRequest
  rw [hj]
  simp only []
  rw [hm]
  simp only []
  rw [hp]
  rfl

/-- `GetControllerInfo` writes nothing but the controller id and the client. -/
theorem GetControllerInfo_frame (env : Env) (c : Controller) (w : World) :
    (GetControllerInfo env c w).c.baseURL = c.baseURL ∧
    (GetControllerInfo env c w).c.user = c.user ∧
    (GetControllerInfo env c w).c.pass = c.pass ∧
    (GetControllerInfo env c w).c.token = c.token ∧
    (GetControllerInfo env c w).c.Sites = c.Sites := by
  unfold GetControllerInfo
  cases env.JoinPath c.baseURL ["/api/info"] with
  | error e => simp
  | ok address =>
    simp only []
    cases NewRequest env "GET" address none with
    | error e => simp
    | ok req =>
      simp only []
      rcases Client.Do env c.httpClient (req.HeaderSet "Accept" "application/json") w
        with ⟨cl, w1, r⟩
      cases r with
      | error e => simp
      | ok res =>
        simp only []
        split
        · simp
        · cases env.DecodeInfo res.Body with
          | error e => simp
          | ok info =>
            simp only []
            split <;> simp

/-- A rejected info request is not a successful one. -/
theorem InfoRejected_not_succeeds (env : Env) (c : Controller) (w : World)
    (info : ControllerInfo) (h : InfoRejected env c w info) :
    ¬ ∃ info2, InfoSucceeds env c w info2 := by
  rintro ⟨info2, a2, r2, cl2, w2, res2, ha2, hr2, hd2, -, hi2, he2⟩
  obtain ⟨a1, r1, cl1, w1, res1, ha1, hr1, hd1, -, hi1, he1⟩ := h
  rw [ha1] at ha2
  cases ha2
  rw [hr1] at hr2
  cases hr2
  rw [hd1] at hd2
  cases hd2
  rw [hi1] at hi2
  cases hi2
  exact he1 he2

/-! ## Login: the accepted reply and the rejected replies -/

/-- C2: when the login reply has status 200 and decodes to error code 0, `Login`
stores the reply's token and the submitted credentials and then is exactly the
site resolution on that state: it returns no error if and only if `getSites`
returns none, and a `getSites` error is returned unchanged. -/
theorem Login_accepted_iff_sites (env : Env) (c : Controller) (user pass : String) (w : World)
    (cl : Client) (w1 : World) (login : LoginResponse)
    (ha : LoginAccepted env c user pass w cl w1 login) :
    Login env c user pass w = getSites env (afterLogin c user pass cl login) w1 ∧
    (Login env c user pass w).c.token = login.Result.Token ∧
    (Login env c user pass w).c.user = user ∧
    (Login env c user pass w).c.pass = pass ∧
    ((Login env c user pass w).err = none ↔
      (getSites env (afterLogin c user pass cl login) w1).err = none) ∧
    (∀ e, (getSites env (afterLogin c user pass cl login) w1).err = some e →
      (Login env c user pass w).err = some e) := by
  have h := Login_of_accepted env c user pass w cl w1 login ha
  obtain ⟨h1, h2, h3, -, -⟩ := getSites_frame env (afterLogin c user pass cl login) w1
  rw [h]
  exact ⟨rfl, h3, h1, h2, Iff.rfl, fun e he => he⟩

theorem Login_accepted_iff_sites_witness :
    LoginAccepted happyEnv discovered "admin" "secret" world2
      (Client.Do happyEnv discovered.httpClient adminLoginRequest world2).1
      (Client.Do happyEnv discovered.httpClient adminLoginRequest world2).2.1
      ⟨0, "", ⟨0, "T1"⟩⟩ ∧
    (Login happyEnv discovered "admin" "secret" world2).c.token = "T1" ∧
    (Login happyEnv discovered "admin" "secret" world2).c.user = "admin" ∧
    (Login happyEnv discovered "admin" "secret" world2).c.pass = "secret" ∧
    (Login happyEnv discovered "admin" "secret" world2).err = none :=
  have ha : LoginAccepted happyEnv discovered "admin" "secret" world2
      (Client.Do happyEnv discovered.httpClient adminLoginRequest world2).1
      (Client.Do happyEnv discovered.httpClient adminLoginRequest world2).2.1
      ⟨0, "", ⟨0, "T1"⟩⟩ :=
    ⟨okLogin, ⟨adminLoginRequest, by decide, by decide⟩, by decide, by decide, by decide⟩
  have h := Login_accepted_iff_sites happyEnv discovered "admin" "secret" world2 _ _ _ ha
  ⟨ha, h.2.1, h.2.2.1, h.2.2.2.1, h.2.2.2.2.1.mpr (by decide)⟩

/-- C3: when the login reply has a status code `n` other than 200, `Login` returns
the error `status code: n`, leaves the token and the `Sites` mapping as they were,
and never looks at the body: the outcome is the same under any JSON decoders. -/
theorem Login_status_not_200 (env : Env) (c : Controller) (user pass : String) (w : World)
    (cl : Client) (w1 : World) (res : Response)
    (hr : LoginReplied env c user pass w cl w1 res) (hs : res.StatusCode ≠ 200) :
    (Login env c user pass w).err = some ("status code: " ++ fmtD res.StatusCode) ∧
    (Login env c user pass w).c.token = c.token ∧
    (Login env c user pass w).c.Sites = c.Sites ∧
    (∀ dI dL dU,
      Login { env with DecodeInfo := dI, DecodeLogin := dL, DecodeCurrentUser := dU }
        c user pass w = Login env c user pass w) := by
  have h := Login_of_status env c user pass w cl w1 res hr hs
  refine ⟨by rw [h], by rw [h], by rw [h], ?_⟩
  intro dI dL dU
  have hr2 : LoginReplied { env with DecodeInfo := dI, DecodeLogin := dL, DecodeCurrentUser := dU }
      c user pass w cl w1 res := hr
  rw [h, Login_of_status _ c user pass w cl w1 res hr2 hs]

theorem Login_status_not_200_witness :
    (LoginReplied deniedEnv discovered "admin" "secret" world2
      (Client.Do deniedEnv discovered.httpClient adminLoginRequest world2).1
      (Client.Do deniedEnv discovered.httpClient adminLoginRequest world2).2.1
      unauthorized ∧ unauthorized.StatusCode ≠ 200) ∧
    (Login deniedEnv discovered "admin" "secret" world2).err = some "status code: 401" ∧
    (Login deniedEnv discovered "admin" "secret" world2).c.token = discovered.token ∧
    (Login deniedEnv discovered "admin" "secret" world2).c.Sites = discovered.Sites :=
  have hr : LoginReplied deniedEnv discovered "admin" "secret" world2
      (Client.Do deniedEnv discovered.httpClient adminLoginRequest world2).1
      (Client.Do deniedEnv discovered.httpClient adminLoginRequest world2).2.1
      unauthorized := ⟨adminLoginRequest, by decide, by decide⟩
  have h := Login_status_not_200 deniedEnv discovered "admin" "secret" world2 _ _ _ hr
    (by decide)
  ⟨⟨hr, by decide⟩, h.1, h.2.1, h.2.2.1⟩

/-- C4: when the login reply has status 200 and decodes to a non-zero error
code, `Login` returns an error carrying that code and the controller's message,
keeps the old token (the reply's token is dropped), and does not resolve sites:
the login request is the only request issued and the outcome does not depend on
anything site resolution uses. -/
theorem Login_errorCode_nonzero (env : Env) (c : Controller) (user pass : String) (w : World)
    (cl : Client) (w1 : World) (res : Response) (login : LoginResponse)
    (hr : LoginReplied env c user pass w cl w1 res) (hs : res.StatusCode = 200)
    (hd : env.DecodeLogin res.Body = .ok login) (he : login.ErrorCode ≠ 0) :
    (Login env c user pass w).err =
      some ("omada controller login error, code: " ++ fmtD login.ErrorCode ++
        ", message: " ++ login.Msg) ∧
    (Login env c user pass w).c.token = c.token ∧
    (Login env c user pass w).c.Sites = c.Sites ∧
    (∃ req, loginRequest env c user pass = .ok req ∧
      issued w (Login env c user pass w).w =
        [{ req := req, cookies := jarCookies env c.httpClient req.URL }]) ∧
    (∀ sR dU, Login { env with SitesRequest := sR, DecodeCurrentUser := dU } c user pass w
      = Login env c user pass w) := by
  have h := Login_of_errorCode env c user pass w cl w1 res login hr hs hd he
  refine ⟨by rw [h], by rw [h], by rw [h], ?_, ?_⟩
  · obtain ⟨req, hq, hdo⟩ := hr
    refine ⟨req, hq, ?_⟩
    rw [h]
    exact issued_of_append w w1 _ (Do_log_of_eq env c.httpClient req w cl w1 _ hdo).1
  · intro sR dU
    have hr2 : LoginReplied { env with SitesRequest := sR, DecodeCurrentUser := dU }
        c user pass w cl w1 res := hr
    rw [h, Login_of_errorCode _ c user pass w cl w1 res login hr2 hs hd he]

theorem Login_errorCode_nonzero_witness :
    (LoginReplied refusedEnv discovered "admin" "secret" world2
      (Client.Do refusedEnv discovered.httpClient adminLoginRequest world2).1
      (Client.Do refusedEnv discovered.httpClient adminLoginRequest world2).2.1
      badLogin ∧ badLogin.StatusCode = 200 ∧
      refusedEnv.DecodeLogin badLogin.Body =
        .ok ⟨-30109, "Invalid username or password.", ⟨0, "T9"⟩⟩ ∧
      (-30109 : Int) ≠ 0) ∧
    (Login refusedEnv discovered "admin" "secret" world2).err =
      some "omada controller login error, code: -30109, message: Invalid username or password." ∧
    (Login refusedEnv discovered "admin" "secret" world2).c.token = "" ∧
    issued world2 (Login refusedEnv discovered "admin" "secret" world2).w =
      [{ req := adminLoginRequest, cookies := [] }] :=
  have hr : LoginReplied refusedEnv discovered "admin" "secret" world2
      (Client.Do refusedEnv discovered.httpClient adminLoginRequest world2).1
      (Client.Do refusedEnv discovered.httpClient adminLoginRequest world2).2.1
      badLogin := ⟨adminLoginRequest, by decide, by decide⟩
  have h := Login_errorCode_nonzero refusedEnv discovered "admin" "secret" world2 _ _ _
    ⟨-30109, "Invalid username or password.", ⟨0, "T9"⟩⟩ hr (by decide) (by decide) (by decide)
  ⟨⟨hr, by decide, by decide, by decide⟩, h.1.trans (by decide), h.2.1, by decide⟩

/-! ## Login: what an error leaves behind -/

/-- C5 (as stated, refuted): a `Login` that fails with HTTP 401 has already
replaced the stored credentials, and a `Login` that fails in site resolution has
already replaced the token. -/
theorem Login_error_commits_example :
    ((Login deniedEnv discovered "admin" "secret" world2).err ≠ none ∧
      (Login deniedEnv discovered "admin" "secret" world2).c.user ≠ discovered.user ∧
      (Login deniedEnv discovered "admin" "secret" world2).c.pass ≠ discovered.pass) ∧
    ((Login sitesDownEnv discovered "admin" "secret" world2).err ≠ none ∧
      (Login sitesDownEnv discovered "admin" "secret" world2).c.token ≠ discovered.token) := by
  decide

/-- C5 (amended): whenever `Login` returns an error, the `Sites` mapping is the
same as before the call and the stored credentials are the submitted ones;
either the failure came before site resolution and the token is unchanged, or
the login reply was accepted, the failure is the one of `getSites`, and the
token is already the reply's token. -/
theorem Login_error_state (env : Env) (c : Controller) (user pass : String) (w : World)
    (herr : (Login env c user pass w).err ≠ none) :
    (Login env c user pass w).c.Sites = c.Sites ∧
    (Login env c user pass w).c.user = user ∧
    (Login env c user pass w).c.pass = pass ∧
    ((Login env c user pass w).c.token = c.token ∨
      (∃ cl w1 login, LoginAccepted env c user pass w cl w1 login ∧
        Login env c user pass w = getSites env (afterLogin c user pass cl login) w1 ∧
        (getSites env (afterLogin c user pass cl login) w1).err ≠ none ∧
        (Login env c user pass w).c.token = login.Result.Token)) := by
  obtain ⟨hu, hp, -, -⟩ := Login_credentials env c user pass w
  rcases Login_cases env c user pass w with ⟨e, -, h⟩ | ⟨req, cl, w1, e, -, -, h⟩ |
    ⟨cl, w1, res, e, -, h⟩ | ⟨cl, w1, login, ha, h⟩
  · refine ⟨?_, hu, hp, Or.inl ?_⟩ <;> rw [h]
  · refine ⟨?_, hu, hp, Or.inl ?_⟩ <;> rw [h]
  · refine ⟨?_, hu, hp, Or.inl ?_⟩ <;> rw [h]
  · have hserr : (getSites env (afterLogin c user pass cl login) w1).err ≠ none := by
      rw [← h]
      exact herr
    refine ⟨?_, hu, hp, Or.inr ⟨cl, w1, login, ha, h, hserr, ?_⟩⟩
    · rw [h]
      exact getSites_error_Sites env (afterLogin c user pass cl login) w1 hserr
    · rw [h]
      exact (getSites_frame env (afterLogin c user pass cl login) w1).2.2.1

theorem Login_error_state_witness :
    (Login sitesDownEnv discovered "admin" "secret" world2).err ≠ none ∧
    (Login sitesDownEnv discovered "admin" "secret" world2).c.Sites = discovered.Sites ∧
    (Login sitesDownEnv discovered "admin" "secret" world2).c.user = "admin" ∧
    (Login sitesDownEnv discovered "admin" "secret" world2).c.pass = "secret" :=
  have h := Login_error_state sitesDownEnv discovered "admin" "secret" world2 (by decide)
  ⟨by decide, h.1, h.2.1, h.2.2.1⟩

/-! ## Refresh -/

/-- C6: on a controller whose stored credentials are `(u, p)`, as every controller
is after a `Login u p` call, `refreshLogin` is the call `Login u p` on the
controller with a new store: without the caller passing anything, its first
request is the one `Login u p` would issue (a POST whose body is the encoding of
username `u` and password `p`), it returns that call's error, and the stored
credentials stay `(u, p)`. -/
theorem refreshLogin_reuses_credentials (env : Env) (c : Controller) (w : World)
    (u p : String) (hu : c.user = u) (hp : c.pass = p) :
    refreshLogin env c w =
      Login env { c with httpClient := { c.httpClient with Jar := some ⟨w.jars, []⟩ } }
        u p { w with jars := w.jars + 1 } ∧
    (issued w (refreshLogin env c w).w).head?.map (fun x => x.req) =
      (issued w (Login env c u p w).w).head?.map (fun x => x.req) ∧
    (∀ x, (issued w (refreshLogin env c w).w).head? = some x →
      x.req.Method = "POST" ∧
      ∃ js, env.MarshalLogin { Username := u, Password := p } = .ok js ∧
        x.req.Body = some js) ∧
    (refreshLogin env c w).c.user = u ∧ (refreshLogin env c w).c.pass = p := by
  subst hu hp
  have heq := refreshLogin_eq env c w
  have hhead := Login_issued_head env
    { c with httpClient := { c.httpClient with Jar := some ⟨w.jars, []⟩ } } c.user c.pass
    { w with jars := w.jars + 1 }
  have hhead0 := Login_issued_head env c c.user c.pass w
  have hq : loginRequest env
      { c with httpClient := { c.httpClient with Jar := some ⟨w.jars, []⟩ } } c.user c.pass
      = loginRequest env c c.user c.pass := rfl
  have hi : ∀ w2 : World, issued { w with jars := w.jars + 1 } w2 = issued w w2 :=
    fun _ => rfl
  rw [hq, hi] at hhead
  obtain ⟨h1, h2, -, -⟩ := Login_credentials env
    { c with httpClient := { c.httpClient with Jar := some ⟨w.jars, []⟩ } } c.user c.pass
    { w with jars := w.jars + 1 }
  rw [heq]
  refine ⟨rfl, ?_, ?_, h1, h2⟩
  · rw [hhead, hhead0]
    cases loginRequest env c c.user c.pass <;> rfl
  · intro x hx
    rw [hhead] at hx
    cases hreq : loginRequest env c c.user c.pass with
    | error e =>
      rw [hreq] at hx
      cases hx
    | ok req =>
      rw [hreq] at hx
      simp only [Option.some.injEq] at hx
      obtain ⟨endpoint, js, -, hm, -, hshape⟩ := loginRequest_ok env c c.user c.pass req hreq
      subst hx
      subst hshape
      exact ⟨rfl, js, hm, rfl⟩

theorem refreshLogin_reuses_credentials_witness :
    ((Login happyEnv discovered "admin" "secret" world2).err = none ∧
      loggedIn.user = "admin" ∧ loggedIn.pass = "secret") ∧
    (issued world3 (refreshLogin happyEnv loggedIn world3).w).head? =
      some { req := adminLoginRequest, cookies := [] } ∧
    (refreshLogin happyEnv loggedIn world3).err = none ∧
    (refreshLogin happyEnv loggedIn world3).c.user = "admin" ∧
    (refreshLogin happyEnv loggedIn world3).c.pass = "secret" :=
  have h := refreshLogin_reuses_credentials happyEnv loggedIn world3 "admin" "secret"
    (by decide) (by decide)
  ⟨⟨by decide, by decide, by decide⟩, by decide, by decide, h.2.2.2.1, h.2.2.2.2⟩

/-- C7: `refreshLogin` installs a newly allocated, empty cookie store before it
logs in: the login request carries no cookies, the outcome does not depend on
the store the client had, and after the call (error or not) the client's store
is the object allocated by this call, different from every store allocated
earlier. -/
theorem refreshLogin_new_cookie_store (env : Env) (c : Controller) (w : World) :
    (∃ j, (refreshLogin env c w).c.httpClient.Jar = some j ∧ j.id = w.jars) ∧
    (refreshLogin env c w).w.jars = w.jars + 1 ∧
    (∀ j0, c.httpClient.Jar = some j0 → j0.id < w.jars →
      (refreshLogin env c w).c.httpClient.Jar ≠ some j0) ∧
    (∀ x, (issued w (refreshLogin env c w).w).head? = some x → x.cookies = []) ∧
    (∀ jar0, refreshLogin env { c with httpClient := { c.httpClient with Jar := jar0 } } w
      = refreshLogin env c w) := by
  have heq := refreshLogin_eq env c w
  obtain ⟨hj, hi, -⟩ := Login_trace env
    { c with httpClient := { c.httpClient with Jar := some ⟨w.jars, []⟩ } } c.user c.pass
    { w with jars := w.jars + 1 }
  have hhead := Login_issued_head env
    { c with httpClient := { c.httpClient with Jar := some ⟨w.jars, []⟩ } } c.user c.pass
    { w with jars := w.jars + 1 }
  have hiss : ∀ w2 : World, issued { w with jars := w.jars + 1 } w2 = issued w w2 :=
    fun _ => rfl
  rw [hiss] at hhead
  rw [← heq] at hj hi hhead
  have hnew : ∃ j, (refreshLogin env c w).c.httpClient.Jar = some j ∧ j.id = w.jars := by
    cases hjar : (refreshLogin env c w).c.httpClient.Jar with
    | none =>
      rw [hjar] at hi
      simp at hi
    | some j =>
      rw [hjar] at hi
      simp at hi
      exact ⟨j, rfl, hi⟩
  refine ⟨hnew, hj, ?_, ?_, ?_⟩
  · intro j0 _ hlt hsame
    obtain ⟨j, hjar, hid⟩ := hnew
    rw [hjar] at hsame
    cases hsame
    omega
  · intro x hx
    rw [hhead] at hx
    cases hreq : loginRequest env
      { c with httpClient := { c.httpClient with Jar := some ⟨w.jars, []⟩ } } c.user c.pass with
    | error e =>
      rw [hreq] at hx
      cases hx
    | ok req =>
      rw [hreq] at hx
      simp only [Option.some.injEq] at hx
      subst hx
      rfl
  · intro jar0
    rw [heq, refreshLogin_eq]

/-! ## Ordering of discovery and login -/

/-- C8 (as stated, refuted): on a controller made by `New` whose info request
was answered with error code -1, `GetControllerInfo` fails and resolves no id,
and the following `Login` still puts a login POST on the wire, addressed to the
path without controller id. -/
theorem Login_without_controller_id_example :
    (GetControllerInfo rejectingEnv fresh world1).err ≠ none ∧
    (GetControllerInfo rejectingEnv fresh world1).c.controllerId = "" ∧
    issued (GetControllerInfo rejectingEnv fresh world1).w
      (Login rejectingEnv (GetControllerInfo rejectingEnv fresh world1).c "admin" "secret"
        (GetControllerInfo rejectingEnv fresh world1).w).w ≠ [] ∧
    (issued (GetControllerInfo rejectingEnv fresh world1).w
      (Login rejectingEnv (GetControllerInfo rejectingEnv fresh world1).c "admin" "secret"
        (GetControllerInfo rejectingEnv fresh world1).w).w).head? =
      some { req := { Method := "POST", URL := "http://omada.test/api/v2/login",
                      Header := [("Content-Type", "application/json")],
                      Body := some "\x7b\"username\":\"admin\",\"password\":\"secret\"\x7d" },
             cookies := [] } := by
  decide

/-- C8 (amended): on a controller made by `New` whose info reply carried a
non-zero error code, `GetControllerInfo` returns an error and the controller id
stays empty; `Login` does not check this, and whenever the login URL (joined
from the base URL, the empty id and the login path), the body and the request
can be built, it issues the login POST to that URL. -/
theorem Login_after_rejected_info (env : Env) (environ : String → Option String)
    (baseURL : String) (w0 : World) (info : ControllerInfo) (user pass endpoint js : String)
    (hrej : InfoRejected env (New environ baseURL w0).1 (New environ baseURL w0).2 info)
    (hj : env.JoinPath baseURL ["", "/api/v2/login"] = .ok endpoint)
    (hm : env.MarshalLogin { Username := user, Password := pass } = .ok js)
    (hp : env.ParseURL endpoint = none) :
    (GetControllerInfo env (New environ baseURL w0).1 (New environ baseURL w0).2).err ≠ none ∧
    (GetControllerInfo env (New environ baseURL w0).1
      (New environ baseURL w0).2).c.controllerId = "" ∧
    ∃ x rest,
      issued (GetControllerInfo env (New environ baseURL w0).1 (New environ baseURL w0).2).w
        (Login env
          (GetControllerInfo env (New environ baseURL w0).1 (New environ baseURL w0).2).c
          user pass
          (GetControllerInfo env (New environ baseURL w0).1 (New environ baseURL w0).2).w).w
        = x :: rest ∧
      x.req = { Method := "POST", URL := endpoint,
                Header := [("Content-Type", "application/json")], Body := some js } := by
  have hno := InfoRejected_not_succeeds env _ _ info hrej
  have hbase := (GetControllerInfo_frame env (New environ baseURL w0).1
    (New environ baseURL w0).2).1
  rcases GetControllerInfo_cases env (New environ baseURL w0).1 (New environ baseURL w0).2
    with ⟨i, hs, -⟩ | ⟨-, he, hid⟩
  · exact absurd ⟨i, hs⟩ hno
  · have hid2 : (GetControllerInfo env (New environ baseURL w0).1
        (New environ baseURL w0).2).c.controllerId = "" := hid
    have hbase2 : (GetControllerInfo env (New environ baseURL w0).1
        (New environ baseURL w0).2).c.baseURL = baseURL := hbase
    refine ⟨he, hid2, ?_⟩
    have hq := loginRequest_of_built env
      (GetControllerInfo env (New environ baseURL w0).1 (New environ baseURL w0).2).c
      user pass endpoint js (by rw [hbase2, hid2]; exact hj) hm hp
    rcases (Login_trace env
      (GetControllerInfo env (New environ baseURL w0).1 (New environ baseURL w0).2).c
      user pass
      (GetControllerInfo env (New environ baseURL w0).1 (New environ baseURL w0).2).w).2.2
      with ⟨e, hq2, -⟩ | ⟨req, rest, hq2, hl⟩
    · rw [hq] at hq2
      cases hq2
    · rw [hq] at hq2
      cases hq2
      exact ⟨_, rest, issued_of_append _ _ _ hl, rfl⟩

theorem Login_after_rejected_info_witness :
    (InfoRejected rejectingEnv (New (fun _ => none) "http://omada.test" world0).1
        (New (fun _ => none) "http://omada.test" world0).2
        ⟨-1, "unavailable", ⟨"", "", false, 0, false, ""⟩⟩ ∧
      rejectingEnv.JoinPath "http://omada.test" ["", "/api/v2/login"]
        = .ok "http://omada.test/api/v2/login" ∧
      rejectingEnv.MarshalLogin { Username := "admin", Password := "secret" }
        = .ok "\x7b\"username\":\"admin\",\"password\":\"secret\"\x7d" ∧
      rejectingEnv.ParseURL "http://omada.test/api/v2/login" = none) ∧
    (GetControllerInfo rejectingEnv (New (fun _ => none) "http://omada.test" world0).1
      (New (fun _ => none) "http://omada.test" world0).2).err ≠ none ∧
    (GetControllerInfo rejectingEnv (New (fun _ => none) "http://omada.test" world0).1
      (New (fun _ => none) "http://omada.test" world0).2).c.controllerId = "" :=
  have hrej : InfoRejected rejectingEnv (New (fun _ => none) "http://omada.test" world0).1
      (New (fun _ => none) "http://omada.test" world0).2
      ⟨-1, "unavailable", ⟨"", "", false, 0, false, ""⟩⟩ :=
    ⟨"http://omada.test/api/info",
      { Method := "GET", URL := "http://omada.test/api/info", Header := [], Body := none },
      _, _, badInfo, by decide, by decide, rfl, by decide, by decide, by decide⟩
  have h := Login_after_rejected_info rejectingEnv (fun _ => none) "http://omada.test" world0
    ⟨-1, "unavailable", ⟨"", "", false, 0, false, ""⟩⟩ "admin" "secret"
    "http://omada.test/api/v2/login"
    "\x7b\"username\":\"admin\",\"password\":\"secret\"\x7d"
    hrej (by decide) (by decide) (by decide)
  ⟨⟨hrej, by decide, by decide, by decide⟩, h.1, h.2.1⟩

/-! ## Stored credentials across calls -/

/-- C9 (as stated, refuted): after `Login admin secret`, a later
`Login guest other` leaves `(guest, other)` stored, not `(admin, secret)`, and the
next `refreshLogin` sends the later pair. -/
theorem Login_second_call_example :
    loggedIn.user = "admin" ∧ loggedIn.pass = "secret" ∧
    ((Login happyEnv loggedIn "guest" "other" world3).c.user,
      (Login happyEnv loggedIn "guest" "other" world3).c.pass) ≠ ("admin", "secret") ∧
    ((issued (Login happyEnv loggedIn "guest" "other" world3).w
      (refreshLogin happyEnv (Login happyEnv loggedIn "guest" "other" world3).c
        (Login happyEnv loggedIn "guest" "other" world3).w).w).head?.map
          (fun x => x.req.Body)) =
      some (some "\x7b\"username\":\"guest\",\"password\":\"other\"\x7d") := by
  decide

/-- C9 (amended): stored credentials are set at every `Login` call: after a
`Login u1 p1` and a later `Login u2 p2` the stored credentials are `(u2, p2)`,
and the next `refreshLogin` is the call `Login u2 p2` on a new cookie store and
leaves `(u2, p2)` stored. -/
theorem Login_overwrites_credentials (env : Env) (c : Controller) (w : World)
    (u1 p1 u2 p2 : String) :
    (Login env (Login env c u1 p1 w).c u2 p2 (Login env c u1 p1 w).w).c.user = u2 ∧
    (Login env (Login env c u1 p1 w).c u2 p2 (Login env c u1 p1 w).w).c.pass = p2 ∧
    refreshLogin env (Login env (Login env c u1 p1 w).c u2 p2 (Login env c u1 p1 w).w).c
        (Login env (Login env c u1 p1 w).c u2 p2 (Login env c u1 p1 w).w).w =
      Login env
        { (Login env (Login env c u1 p1 w).c u2 p2 (Login env c u1 p1 w).w).c with
          httpClient :=
            { (Login env (Login env c u1 p1 w).c u2 p2 (Login env c u1 p1 w).w).c.httpClient with
              Jar := some ⟨(Login env (Login env c u1 p1 w).c u2 p2
                (Login env c u1 p1 w).w).w.jars, []⟩ } }
        u2 p2
        { (Login env (Login env c u1 p1 w).c u2 p2 (Login env c u1 p1 w).w).w with
          jars := (Login env (Login env c u1 p1 w).c u2 p2 (Login env c u1 p1 w).w).w.jars + 1 } ∧
    (refreshLogin env (Login env (Login env c u1 p1 w).c u2 p2 (Login env c u1 p1 w).w).c
      (Login env (Login env c u1 p1 w).c u2 p2 (Login env c u1 p1 w).w).w).c.user = u2 ∧
    (refreshLogin env (Login env (Login env c u1 p1 w).c u2 p2 (Login env c u1 p1 w).w).c
      (Login env (Login env c u1 p1 w).c u2 p2 (Login env c u1 p1 w).w).w).c.pass = p2 := by
  obtain ⟨hu, hp, -, -⟩ := Login_credentials env (Login env c u1 p1 w).c u2 p2
    (Login env c u1 p1 w).w
  generalize Login env (Login env c u1 p1 w).c u2 p2 (Login env c u1 p1 w).w = r at hu hp ⊢
  have heq := refreshLogin_eq env r.c r.w
  rw [hu, hp] at heq
  obtain ⟨h1, h2, -, -⟩ := Login_credentials env
    { r.c with httpClient := { r.c.httpClient with Jar := some ⟨r.w.jars, []⟩ } } u2 p2
    { r.w with jars := r.w.jars + 1 }
  refine ⟨hu, hp, heq, ?_, ?_⟩
  · rw [heq]
    exact h1
  · rw [heq]
    exact h2

/-! ## Transport configuration -/

/-- The strings `strconv.ParseBool` reads as true. -/
theorem ParseBool_true (v : String) :
    ((ParseBool v).1 = true ↔
      (v = "1" ∨ v = "t" ∨ v = "T" ∨ v = "TRUE" ∨ v = "true" ∨ v = "True")) ∧
    (ParseBool v = (true, none) ↔
      (v = "1" ∨ v = "t" ∨ v = "T" ∨ v = "TRUE" ∨ v = "true" ∨ v = "True")) := by
  unfold ParseBool
  by_cases h1 : v = "1" ∨ v = "t" ∨ v = "T" ∨ v = "true" ∨ v = "TRUE" ∨ v = "True"
  · have h2 : v = "1" ∨ v = "t" ∨ v = "T" ∨ v = "TRUE" ∨ v = "true" ∨ v = "True" := by tauto
    rw [if_pos h1]
    exact ⟨⟨fun _ => h2, fun _ => rfl⟩, ⟨fun _ => h2, fun _ => rfl⟩⟩
  · have h2 : ¬ (v = "1" ∨ v = "t" ∨ v = "T" ∨ v = "TRUE" ∨ v = "true" ∨ v = "True") := by
      tauto
    rw [if_neg h1]
    constructor
    · constructor
      · intro h
        split at h <;> simp at h
      · intro h
        exact absurd h h2
    · constructor
      · intro h
        split at h <;> simp at h
      · intro h
        exact absurd h h2

/-- C10: the client built by `New` skips TLS peer verification exactly when
`OMADA_DISABLE_HTTPS_VERIFICATION` is present with one of the values that
`strconv.ParseBool` reads as true; unset, empty, unparsable or false values
leave verification enabled. -/
theorem New_InsecureSkipVerify_iff (environ : String → Option String) (baseURL : String)
    (w : World) :
    ((New environ baseURL w).1.httpClient.InsecureSkipVerify = true ↔
      ∃ v, environ "OMADA_DISABLE_HTTPS_VERIFICATION" = some v ∧
        (v = "1" ∨ v = "t" ∨ v = "T" ∨ v = "TRUE" ∨ v = "true" ∨ v = "True")) ∧
    ((New environ baseURL w).1.httpClient.InsecureSkipVerify = true ↔
      ∃ v, environ "OMADA_DISABLE_HTTPS_VERIFICATION" = some v ∧
        ParseBool v = (true, none)) := by
  have hnew : (New environ baseURL w).1.httpClient.InsecureSkipVerify =
      (ParseBool (LookupEnv environ "OMADA_DISABLE_HTTPS_VERIFICATION").1).1 := rfl
  rw [hnew]
  unfold LookupEnv
  cases h : environ "OMADA_DISABLE_HTTPS_VERIFICATION" with
  | none =>
    have hempty : (ParseBool "").1 = false := by decide
    simp [hempty]
  | some v =>
    obtain ⟨h1, h2⟩ := ParseBool_true v
    simp only [Option.some.injEq, exists_eq_left']
    exact ⟨h1, h1.trans h2.symm⟩

end Omada
